import Mathlib

/-!
Verification of the `uwv_dynamic_model` dynamics engine.

Shallow embedding of `src/DynamicModel.cpp` (namespace `uwv_dynamic_model`,
class `DynamicModel`): a 6-DOF underwater-vehicle rigid-body dynamics model.

Doubles are modelled in exact arithmetic by `Val`: either an exact rational
number or NaN.  Every arithmetic operation with a NaN operand yields NaN,
matching IEEE-754 NaN propagation; all other operations are exact.
Parameter values (validated at configuration time, never NaN in any scenario
the specification considers) are modelled as exact rationals.
-/

namespace UwvModel

/-- An IEEE double in exact arithmetic: an exact rational number or NaN. -/
inductive Val where
  | num (q : ℚ)
  | nan
  deriving DecidableEq

/-- Addition with IEEE NaN propagation. -/
def Val.add : Val → Val → Val
  | Val.num a, Val.num b => Val.num (a + b)
  | _, _ => Val.nan

/-- Multiplication with IEEE NaN propagation. -/
def Val.mul : Val → Val → Val
  | Val.num a, Val.num b => Val.num (a * b)
  | _, _ => Val.nan

/-- Negation with IEEE NaN propagation. -/
def Val.neg : Val → Val
  | Val.num a => Val.num (-a)
  | Val.nan => Val.nan

/-- Subtraction with IEEE NaN propagation. -/
def Val.sub : Val → Val → Val
  | Val.num a, Val.num b => Val.num (a - b)
  | _, _ => Val.nan

/-- Absolute value (Eigen `cwiseAbs` componentwise); NaN maps to NaN. -/
def Val.abs : Val → Val
  | Val.num a => Val.num |a|
  | Val.nan => Val.nan

/-- Test for NaN (Eigen `hasNaN` componentwise). -/
def Val.isNaN : Val → Bool
  | Val.num _ => false
  | Val.nan => true

instance : Add Val := ⟨Val.add⟩

instance : Mul Val := ⟨Val.mul⟩

instance : Neg Val := ⟨Val.neg⟩

instance : Sub Val := ⟨Val.sub⟩

/-- `base::Vector6d`: a 6-vector of doubles. -/
abbrev Vec6 := Fin 6 → Val

/-- `base::Vector3d`: a 3-vector of doubles. -/
abbrev Vec3 := Fin 3 → Val

/-- `base::Matrix6d` of parameter values, in exact arithmetic. -/
abbrev Mat6 := Matrix (Fin 6) (Fin 6) ℚ

/-- Sum of three `Val`s (a fixed-size dot-product accumulation). -/
def sum3 (f : Fin 3 → Val) : Val := f 0 + (f 1 + f 2)

/-- Sum of six `Val`s (a fixed-size dot-product accumulation). -/
def sum6 (f : Fin 6 → Val) : Val := f 0 + (f 1 + (f 2 + (f 3 + (f 4 + f 5))))

/-- Componentwise addition of 6-vectors. -/
def addV (a b : Vec6) : Vec6 := fun i => a i + b i

/-- Componentwise subtraction of 6-vectors. -/
def subV (a b : Vec6) : Vec6 := fun i => a i - b i

/-- Componentwise negation of a 6-vector (unary minus on `base::Vector6d`). -/
def negV (a : Vec6) : Vec6 := fun i => -(a i)

/-- Componentwise addition of 3-vectors. -/
def addV3 (a b : Vec3) : Vec3 := fun i => a i + b i

/-- Product of an exact (parameter) 6×6 matrix and a `Val` 6-vector. -/
def mulVecQV (A : Mat6) (v : Vec6) : Vec6 := fun i => sum6 fun j => Val.num (A i j) * v j

/-- Product of a `Val` 6×6 matrix and a `Val` 6-vector. -/
def mulVecVV (A : Fin 6 → Fin 6 → Val) (v : Vec6) : Vec6 := fun i => sum6 fun j => A i j * v j

/-- `v.head<3>()`. -/
def head3 (v : Vec6) : Vec3 := fun i => v ⟨i.val, by omega⟩

/-- `v.tail<3>()`. -/
def tail3 (v : Vec6) : Vec3 := fun i => v ⟨i.val + 3, by omega⟩

/-- Building a 6-vector from two 3-vector blocks (Eigen `operator<<`). -/
def append3 (a b : Vec3) : Vec6 :=
  fun i => if h : i.val < 3 then a ⟨i.val, h⟩ else b ⟨i.val - 3, by omega⟩

/-- Eigen 3-vector cross product `a.cross(b)`. -/
def cross3 (a b : Vec3) : Vec3 :=
  ![a 1 * b 2 - a 2 * b 1, a 2 * b 0 - a 0 * b 2, a 0 * b 1 - a 1 * b 0]

/-- Eigen `hasNaN()` on a 6-vector. -/
def hasNaN (v : Vec6) : Bool := (List.finRange 6).any fun i => (v i).isNaN

/-- The `ModelType` enumeration selecting the model fidelity. -/
inductive ModelType where
  | SIMPLE
  | COMPLEX
  | INTERMEDIATE
  deriving DecidableEq

/-- `UWVParameters`: the vehicle parameter set (model fidelity, 6×6 inertia
matrix, sequence of 6×6 damping matrices, weight and buoyancy scalars, and the
body-frame offsets of the centers of gravity and buoyancy). -/
structure UWVParameters where
  model_type : ModelType
  inertia_matrix : Mat6
  damping_matrices : List Mat6
  weight : ℚ
  buoyancy : ℚ
  distance_body2centerofgravity : Fin 3 → ℚ
  distance_body2centerofbuoyancy : Fin 3 → ℚ

/-- `base::Orientation` (a unit quaternion in the source) embedded as the 3×3
rotation matrix of the orientation (body frame to world frame), with
possibly-NaN entries.  The source only ever uses the action
`orientation.inverse() * u`; for a rotation the inverse acts as the transpose,
so that action is modelled by `rotInvApply`. -/
abbrev Orientation := Fin 3 → Fin 3 → Val

/-- The action `orientation.inverse() * u`: transpose of the rotation matrix
applied to a 3-vector. -/
def rotInvApply (orientation : Orientation) (u : Vec3) : Vec3 :=
  fun i => sum3 fun j => orientation j i * u j

/-- The `DynamicModel` state: the active parameter set and the cached
inverse-inertia matrix. -/
structure DynamicModel where
  uwv_parameters : UWVParameters
  invert_inertia_matrix : Mat6

/-- `calcInvInertiaMatrix`: the cached inverse-inertia matrix is produced in the
source by an SVD-based least-squares solve of `M * X = I` (Eigen `JacobiSVD`,
external library code that is not part of this repository).  Modelled from the
spec: in exact arithmetic that solve returns the true inverse whenever `M` is
invertible, and it is total (it raises no error for any input, including
singular input).  This model returns the exact inverse on invertible input and
`0` on singular input; the all-zero matrix's least-squares solution is also
`0`, while the value at other singular matrices (where Eigen would return the
Moore-Penrose pseudo-inverse) is not relied upon by any theorem below. -/
def calcInvInertiaMatrix (inertia_matrix : Mat6) : Mat6 :=
  if inertia_matrix.det = 0 then 0 else inertia_matrix.det⁻¹ • inertia_matrix.adjugate

/-- `calcCoriolisEffect`: with `prod = M·v`, returns
`-[prod.head × v.tail ; prod.head × v.head + prod.tail × v.tail]`. -/
def calcCoriolisEffect (inertia_matrix : Mat6) (velocity : Vec6) : Vec6 :=
  let prod := mulVecQV inertia_matrix velocity
  negV (append3 (cross3 (head3 prod) (tail3 velocity))
    (addV3 (cross3 (head3 prod) (head3 velocity)) (cross3 (tail3 prod) (tail3 velocity))))

/-- `caclGeneralQuadDamping`: `(sum over i of Di·|v i|) · v`; requires exactly
6 quadratic damping matrices. -/
def caclGeneralQuadDamping (quad_damp_matrices : List Mat6) (velocity : Vec6) :
    Except String Vec6 :=
  if quad_damp_matrices.length ≠ 6 then
    Except.error "quadDampMatrices does not have 6 elements."
  else
    Except.ok (mulVecVV
      (fun r c => sum6 fun i =>
        Val.num ((quad_damp_matrices.getD i.val 0) r c) * (velocity i).abs)
      velocity)

/-- `calcLinDamping`: `lin_damp_matrix · v`. -/
def calcLinDamping (lin_damp_matrix : Mat6) (velocity : Vec6) : Vec6 :=
  mulVecQV lin_damp_matrix velocity

/-- `calcQuadDamping`: `quad_damp_matrix · diag(|v|) · v`, i.e. the matrix
applied to the componentwise product `|v i| * v i`. -/
def calcQuadDamping (quad_damp_matrix : Mat6) (velocity : Vec6) : Vec6 :=
  mulVecQV quad_damp_matrix (fun i => (velocity i).abs * velocity i)

/-- `caclSimpleDamping`: linear plus quadratic damping; requires exactly 2
damping matrices (index 0 linear, index 1 quadratic). -/
def caclSimpleDamping (damp_matrices : List Mat6) (velocity : Vec6) :
    Except String Vec6 :=
  if damp_matrices.length ≠ 2 then
    Except.error "dampMatrices does not have 2 elements."
  else
    Except.ok (addV (calcLinDamping (damp_matrices.getD 0 0) velocity)
      (calcQuadDamping (damp_matrices.getD 1 0) velocity))

/-- `calcDampingAndCoriolisEffect`: dispatch over the model fidelity. -/
def calcDampingAndCoriolisEffect (uwv_parameters : UWVParameters) (velocity : Vec6) :
    Except String Vec6 :=
  match uwv_parameters.model_type with
  | ModelType.SIMPLE => caclSimpleDamping uwv_parameters.damping_matrices velocity
  | ModelType.COMPLEX =>
      (caclGeneralQuadDamping uwv_parameters.damping_matrices velocity).map
        (fun d => addV (calcCoriolisEffect uwv_parameters.inertia_matrix velocity) d)
  | ModelType.INTERMEDIATE =>
      (caclSimpleDamping uwv_parameters.damping_matrices velocity).map
        (fun d => addV (calcCoriolisEffect uwv_parameters.inertia_matrix velocity) d)

/-- `calcGravityBuoyancy` (5-argument overload):
`[R.inverse · (0,0,W-B) ; (cg·W - cb·B) × (R.inverse · (0,0,1))]`. -/
def calcGravityBuoyancy (orientation : Orientation) (weight bouyancy : ℚ)
    (cg cb : Fin 3 → ℚ) : Vec6 :=
  append3
    (rotInvApply orientation ![Val.num 0, Val.num 0, Val.num (weight - bouyancy)])
    (cross3 (fun i => Val.num (cg i * weight - cb i * bouyancy))
      (rotInvApply orientation ![Val.num 0, Val.num 0, Val.num 1]))

/-- `calcGravityBuoyancy` (parameter-set overload). -/
def calcGravityBuoyancyParams (orientation : Orientation)
    (uwv_parameters : UWVParameters) : Vec6 :=
  calcGravityBuoyancy orientation uwv_parameters.weight uwv_parameters.buoyancy
    uwv_parameters.distance_body2centerofgravity
    uwv_parameters.distance_body2centerofbuoyancy

/-- `checkParameters`: the configuration-time validation. -/
def checkParameters (uwv_parameters : UWVParameters) : Except String Unit :=
  if uwv_parameters.model_type = ModelType.SIMPLE ∧ uwv_parameters.damping_matrices.length ≠ 2 then
    Except.error "in SIMPLE model, damping_matrices should have two elements, the linear damping matrix and quadratic damping matrix"
  else if uwv_parameters.model_type = ModelType.COMPLEX ∧ uwv_parameters.damping_matrices.length ≠ 6 then
    Except.error "in COMPLEX model, damping_matrices should have six elements, one quadratic damping matrix / DOF"
  else if uwv_parameters.weight ≤ 0 then
    Except.error "weight must be a positive value"
  else if uwv_parameters.buoyancy ≤ 0 then
    Except.error "buoyancy must be a positive value"
  else
    Except.ok ()

/-- `checkControlInput`: rejects a control input containing NaN. -/
def checkControlInput (control_input : Vec6) : Except String Unit :=
  if hasNaN control_input then
    Except.error "DynamicModel checkControlInput: control input is unset"
  else
    Except.ok ()

/-- `checkVelocity`: rejects a velocity containing NaN. -/
def checkVelocity (velocity : Vec6) : Except String Unit :=
  if hasNaN velocity then
    Except.error "DynamicModel checkVelocity: velocity is unset"
  else
    Except.ok ()

/-- `checkAcceleration`: rejects an acceleration containing NaN. -/
def checkAcceleration (acceleration : Vec6) : Except String Unit :=
  if hasNaN acceleration then
    Except.error "DynamicModel checkAcceleration: acceleration is unset"
  else
    Except.ok ()

/-- `setUWVParameters` mutates the model in the source; modelled as a state
transformer returning the error status together with the post-call state.  A
raised error leaves the state unchanged (the C++ throw in `checkParameters`
happens before any field assignment). -/
def setUWVParameters (parameters : UWVParameters) (m : DynamicModel) :
    Except String Unit × DynamicModel :=
  match checkParameters parameters with
  | Except.error e => (Except.error e, m)
  | Except.ok _ =>
      (Except.ok (), ⟨parameters, calcInvInertiaMatrix parameters.inertia_matrix⟩)

/-- `getUWVParameters`: read-only snapshot of the active parameter set. -/
def getUWVParameters (m : DynamicModel) : UWVParameters := m.uwv_parameters

/-- `calcAcceleration`: forward dynamics.  Checks control input and velocity,
then returns `invInertiaMatrix · (u - gravityBuoyancy - dampingAndCoriolis)`. -/
def calcAcceleration (m : DynamicModel) (control_input velocity : Vec6)
    (orientation : Orientation) : Except String Vec6 := do
  checkControlInput control_input
  checkVelocity velocity
  let dc ← calcDampingAndCoriolisEffect m.uwv_parameters velocity
  let acceleration := subV
    (subV control_input (calcGravityBuoyancyParams orientation m.uwv_parameters)) dc
  Except.ok (mulVecQV m.invert_inertia_matrix acceleration)

/-- `calcEfforts`: inverse dynamics.  Checks acceleration and velocity, then
returns `inertiaMatrix · a + gravityBuoyancy + dampingAndCoriolis`. -/
def calcEfforts (m : DynamicModel) (acceleration velocity : Vec6)
    (orientation : Orientation) : Except String Vec6 := do
  checkAcceleration acceleration
  checkVelocity velocity
  let dc ← calcDampingAndCoriolisEffect m.uwv_parameters velocity
  Except.ok (addV (addV (mulVecQV m.uwv_parameters.inertia_matrix acceleration)
    (calcGravityBuoyancyParams orientation m.uwv_parameters)) dc)

/-! ## Exact-value (NaN-free) mirrors and lifting lemmas

A NaN-free `Val` vector is `numV x` for an exact rational vector `x`; on such
inputs every computation of the model agrees with its exact rational mirror.
-/

/-- Embed an exact rational 6-vector as a NaN-free `Val` vector. -/
def numV (x : Fin 6 → ℚ) : Vec6 := fun i => Val.num (x i)

/-- Embed an exact rational 3-vector as a NaN-free `Val` vector. -/
def numV3 (x : Fin 3 → ℚ) : Vec3 := fun i => Val.num (x i)

/-- Embed an exact rotation matrix as a NaN-free orientation. -/
def numO (Rq : Fin 3 → Fin 3 → ℚ) : Orientation := fun i j => Val.num (Rq i j)

@[simp] lemma num_add (a b : ℚ) : Val.num a + Val.num b = Val.num (a + b) := rfl

@[simp] lemma nan_add (a : Val) : Val.nan + a = Val.nan := by cases a <;> rfl

@[simp] lemma add_nan (a : Val) : a + Val.nan = Val.nan := by cases a <;> rfl

@[simp] lemma num_mul (a b : ℚ) : Val.num a * Val.num b = Val.num (a * b) := rfl

@[simp] lemma nan_mul (a : Val) : Val.nan * a = Val.nan := by cases a <;> rfl

@[simp] lemma mul_nan (a : Val) : a * Val.nan = Val.nan := by cases a <;> rfl

@[simp] lemma num_sub (a b : ℚ) : Val.num a - Val.num b = Val.num (a - b) := rfl

@[simp] lemma nan_sub (a : Val) : Val.nan - a = Val.nan := by cases a <;> rfl

@[simp] lemma sub_nan (a : Val) : a - Val.nan = Val.nan := by cases a <;> rfl

@[simp] lemma num_neg (a : ℚ) : -(Val.num a) = Val.num (-a) := rfl

@[simp] lemma num_abs (a : ℚ) : (Val.num a).abs = Val.num |a| := rfl

@[simp] lemma isNaN_num (a : ℚ) : (Val.num a).isNaN = false := rfl

lemma val_mul_assoc (a b c : Val) : a * b * c = a * (b * c) := by
  cases a <;> cases b <;> cases c <;> simp [mul_assoc]

lemma val_add_comm (a b : Val) : a + b = b + a := by
  cases a <;> cases b <;> simp [add_comm]

/-- Exact mirror of `sum3`. -/
def sumQ3 (f : Fin 3 → ℚ) : ℚ := f 0 + (f 1 + f 2)

/-- Exact mirror of `sum6`. -/
def sumQ6 (f : Fin 6 → ℚ) : ℚ := f 0 + (f 1 + (f 2 + (f 3 + (f 4 + f 5))))

/-- Exact mirror of `mulVecQV`/`mulVecVV`. -/
def mulVecQ (A : Mat6) (x : Fin 6 → ℚ) : Fin 6 → ℚ := fun i => sumQ6 fun j => A i j * x j

/-- Exact mirror of `cross3`. -/
def crossQ (a b : Fin 3 → ℚ) : Fin 3 → ℚ :=
  ![a 1 * b 2 - a 2 * b 1, a 2 * b 0 - a 0 * b 2, a 0 * b 1 - a 1 * b 0]

/-- Exact mirror of `head3`. -/
def headQ (x : Fin 6 → ℚ) : Fin 3 → ℚ := fun i => x ⟨i.val, by omega⟩

/-- Exact mirror of `tail3`. -/
def tailQ (x : Fin 6 → ℚ) : Fin 3 → ℚ := fun i => x ⟨i.val + 3, by omega⟩

/-- Exact mirror of `append3`. -/
def appendQ (a b : Fin 3 → ℚ) : Fin 6 → ℚ :=
  fun i => if h : i.val < 3 then a ⟨i.val, h⟩ else b ⟨i.val - 3, by omega⟩

/-- Exact mirror of `rotInvApply`. -/
def rotInvApplyQ (Rq : Fin 3 → Fin 3 → ℚ) (u : Fin 3 → ℚ) : Fin 3 → ℚ :=
  fun i => sumQ3 fun j => Rq j i * u j

/-- Exact mirror of `calcCoriolisEffect`. -/
def coriolisQ (M : Mat6) (x : Fin 6 → ℚ) : Fin 6 → ℚ :=
  -(appendQ (crossQ (headQ (mulVecQ M x)) (tailQ x))
    (fun i => crossQ (headQ (mulVecQ M x)) (headQ x) i +
      crossQ (tailQ (mulVecQ M x)) (tailQ x) i))

/-- Exact mirror of `calcGravityBuoyancy`. -/
def gravityQ (Rq : Fin 3 → Fin 3 → ℚ) (W B : ℚ) (cg cb : Fin 3 → ℚ) : Fin 6 → ℚ :=
  appendQ (rotInvApplyQ Rq ![0, 0, W - B])
    (crossQ (fun i => cg i * W - cb i * B) (rotInvApplyQ Rq ![0, 0, 1]))

/-- Exact mirror of the value computed by `caclSimpleDamping`. -/
def simpleDampQ (d : List Mat6) (x : Fin 6 → ℚ) : Fin 6 → ℚ :=
  mulVecQ (d.getD 0 0) x + mulVecQ (d.getD 1 0) (fun i => |x i| * x i)

/-- Exact mirror of the value computed by `caclGeneralQuadDamping`. -/
def quadDampQ (d : List Mat6) (x : Fin 6 → ℚ) : Fin 6 → ℚ :=
  mulVecQ (fun r c => sumQ6 fun i => (d.getD i.val 0) r c * |x i|) x

/-- Exact mirror of the value computed by `calcDampingAndCoriolisEffect`. -/
def dampingCoriolisQ (p : UWVParameters) (x : Fin 6 → ℚ) : Fin 6 → ℚ :=
  match p.model_type with
  | ModelType.SIMPLE => simpleDampQ p.damping_matrices x
  | ModelType.COMPLEX => coriolisQ p.inertia_matrix x + quadDampQ p.damping_matrices x
  | ModelType.INTERMEDIATE => coriolisQ p.inertia_matrix x + simpleDampQ p.damping_matrices x

lemma mulVecQV_num (A : Mat6) (x : Fin 6 → ℚ) : mulVecQV A (numV x) = numV (mulVecQ A x) := rfl

lemma addV_num (x y : Fin 6 → ℚ) : addV (numV x) (numV y) = numV (x + y) := rfl

lemma subV_num (x y : Fin 6 → ℚ) : subV (numV x) (numV y) = numV (x - y) := rfl

lemma negV_num (x : Fin 6 → ℚ) : negV (numV x) = numV (-x) := rfl

lemma addV3_num (x y : Fin 3 → ℚ) : addV3 (numV3 x) (numV3 y) = numV3 (x + y) := rfl

lemma head3_num (x : Fin 6 → ℚ) : head3 (numV x) = numV3 (headQ x) := rfl

lemma tail3_num (x : Fin 6 → ℚ) : tail3 (numV x) = numV3 (tailQ x) := rfl

lemma append3_num (a b : Fin 3 → ℚ) : append3 (numV3 a) (numV3 b) = numV (appendQ a b) := by
  funext i
  by_cases h : i.val < 3 <;> simp [append3, appendQ, numV, numV3, h]

lemma cross3_num (a b : Fin 3 → ℚ) : cross3 (numV3 a) (numV3 b) = numV3 (crossQ a b) := by
  funext i
  fin_cases i <;> rfl

lemma rotInvApply_num (Rq : Fin 3 → Fin 3 → ℚ) (u : Fin 3 → ℚ) :
    rotInvApply (numO Rq) (numV3 u) = numV3 (rotInvApplyQ Rq u) := rfl

lemma vec3_lit_num (a b c : ℚ) :
    (![Val.num a, Val.num b, Val.num c] : Vec3) = numV3 ![a, b, c] := by
  funext i
  fin_cases i <;> rfl

lemma hasNaN_numV (x : Fin 6 → ℚ) : hasNaN (numV x) = false := rfl

lemma coriolis_num (M : Mat6) (x : Fin 6 → ℚ) :
    calcCoriolisEffect M (numV x) = numV (coriolisQ M x) := by
  show negV (append3 (cross3 (head3 (mulVecQV M (numV x))) (tail3 (numV x)))
    (addV3 (cross3 (head3 (mulVecQV M (numV x))) (head3 (numV x)))
      (cross3 (tail3 (mulVecQV M (numV x))) (tail3 (numV x))))) = numV (coriolisQ M x)
  simp only [mulVecQV_num, head3_num, tail3_num, cross3_num, addV3_num, append3_num, negV_num]
  rfl

lemma gravity_num (Rq : Fin 3 → Fin 3 → ℚ) (W B : ℚ) (cg cb : Fin 3 → ℚ) :
    calcGravityBuoyancy (numO Rq) W B cg cb = numV (gravityQ Rq W B cg cb) := by
  show append3 (rotInvApply (numO Rq) ![Val.num 0, Val.num 0, Val.num (W - B)])
    (cross3 (fun i => Val.num (cg i * W - cb i * B))
      (rotInvApply (numO Rq) ![Val.num 0, Val.num 0, Val.num 1])) = numV (gravityQ Rq W B cg cb)
  simp only [vec3_lit_num, rotInvApply_num,
    show (fun i => Val.num (cg i * W - cb i * B)) = numV3 (fun i => cg i * W - cb i * B) from rfl,
    cross3_num, append3_num]
  rfl

lemma absMulSelf_num (x : Fin 6 → ℚ) :
    (fun i => (numV x i).abs * numV x i) = numV (fun i => |x i| * x i) := rfl

lemma simpleDamping_num (d : List Mat6) (x : Fin 6 → ℚ) (h : d.length = 2) :
    caclSimpleDamping d (numV x) = Except.ok (numV (simpleDampQ d x)) := by
  unfold caclSimpleDamping calcLinDamping calcQuadDamping
  rw [if_neg (by simp [h])]
  rw [absMulSelf_num, mulVecQV_num, mulVecQV_num, addV_num]
  rfl

lemma generalQuadDamping_num (d : List Mat6) (x : Fin 6 → ℚ) (h : d.length = 6) :
    caclGeneralQuadDamping d (numV x) = Except.ok (numV (quadDampQ d x)) := by
  unfold caclGeneralQuadDamping
  rw [if_neg (by simp [h])]
  rfl

lemma dampingCoriolis_num (p : UWVParameters) (x : Fin 6 → ℚ)
    (h2 : p.model_type ≠ ModelType.COMPLEX → p.damping_matrices.length = 2)
    (h6 : p.model_type = ModelType.COMPLEX → p.damping_matrices.length = 6) :
    calcDampingAndCoriolisEffect p (numV x) = Except.ok (numV (dampingCoriolisQ p x)) := by
  unfold calcDampingAndCoriolisEffect dampingCoriolisQ
  cases hm : p.model_type
  case SIMPLE =>
    rw [simpleDamping_num _ _ (h2 (by rw [hm]; intro hc; cases hc))]
  case COMPLEX =>
    rw [generalQuadDamping_num _ _ (h6 hm)]
    show Except.ok (addV (calcCoriolisEffect p.inertia_matrix (numV x))
      (numV (quadDampQ p.damping_matrices x))) = _
    rw [coriolis_num, addV_num]
  case INTERMEDIATE =>
    rw [simpleDamping_num _ _ (h2 (by rw [hm]; intro hc; cases hc))]
    show Except.ok (addV (calcCoriolisEffect p.inertia_matrix (numV x))
      (numV (simpleDampQ p.damping_matrices x))) = _
    rw [coriolis_num, addV_num]

lemma mulVecQ_eq_mulVec (A : Mat6) (x : Fin 6 → ℚ) : mulVecQ A x = A.mulVec x := by
  funext i
  simp [mulVecQ, sumQ6, Matrix.mulVec, Matrix.dotProduct, Fin.sum_univ_six]
  ring

lemma calcInvInertiaMatrix_mul (M : Mat6) (h : M.det ≠ 0) :
    calcInvInertiaMatrix M * M = 1 := by
  unfold calcInvInertiaMatrix
  rw [if_neg h, Matrix.smul_mul, Matrix.adjugate_mul, smul_smul, inv_mul_cancel₀ h, one_smul]

/-! ## Concrete instances used as witnesses -/

/-- A SIMPLE-fidelity parameter set: identity inertia, two zero damping
matrices, unit weight and buoyancy, coincident centers. -/
def pSimple : UWVParameters :=
  { model_type := ModelType.SIMPLE
    inertia_matrix := 1
    damping_matrices := [0, 0]
    weight := 1
    buoyancy := 1
    distance_body2centerofgravity := fun _ => 0
    distance_body2centerofbuoyancy := fun _ => 0 }

/-- A model state holding `pSimple` (the cached matrix value is irrelevant to
the theorems that use this state). -/
def mSimple : DynamicModel := ⟨pSimple, 1⟩

/-- An INTERMEDIATE-fidelity parameter set with an empty damping sequence. -/
def pInter : UWVParameters :=
  { pSimple with model_type := ModelType.INTERMEDIATE, damping_matrices := [] }

/-- A COMPLEX-fidelity parameter set with a 2-element damping sequence. -/
def pComplex2 : UWVParameters := { pSimple with model_type := ModelType.COMPLEX }

/-- A SIMPLE-fidelity parameter set with the all-zero (singular) inertia matrix. -/
def pZeroInertia : UWVParameters := { pSimple with inertia_matrix := 0 }

/-- The zero 6-vector input. -/
def vZero : Vec6 := numV fun _ => 0

/-- The identity orientation. -/
def RidO : Orientation := numO fun i j => if i = j then 1 else 0

/-- An orientation whose matrix entries are all NaN. -/
def Rnan : Orientation := fun _ _ => Val.nan

/-! ## Shared helper lemmas -/

lemma setUWVParameters_fst (p : UWVParameters) (m : DynamicModel) :
    (setUWVParameters p m).1 = checkParameters p := by
  unfold setUWVParameters
  cases h : checkParameters p with
  | error e => rfl
  | ok u => cases u; rfl

lemma checkParameters_ok_facts (p : UWVParameters) (h : checkParameters p = Except.ok ()) :
    (p.model_type = ModelType.SIMPLE → p.damping_matrices.length = 2) ∧
    (p.model_type = ModelType.COMPLEX → p.damping_matrices.length = 6) ∧
    0 < p.weight ∧ 0 < p.buoyancy := by
  unfold checkParameters at h
  split_ifs at h with h1 h2 h3 h4
  push_neg at h1 h2 h3 h4
  refine ⟨fun hs => ?_, fun hc => ?_, h3, h4⟩
  · by_contra hlen
    exact hlen (h1 hs)
  · by_contra hlen
    exact hlen (h2 hc)

lemma hasNaN_update (v : Vec6) (i : Fin 6) :
    hasNaN (Function.update v i Val.nan) = true := by
  simp only [hasNaN, List.any_eq_true]
  exact ⟨i, List.mem_finRange i, by simp [Function.update, Val.isNaN]⟩

lemma addV_comm (a b : Vec6) : addV a b = addV b a :=
  funext fun i => val_add_comm (a i) (b i)

lemma mulVecQ_zero (M : Mat6) : mulVecQ M (fun _ => 0) = fun _ => 0 := by
  funext i
  simp [mulVecQ, sumQ6]

lemma crossQ_zero (v : Fin 3 → ℚ) : crossQ (fun _ => 0) v = fun _ => 0 := by
  funext i
  fin_cases i <;> simp [crossQ]

lemma appendQ_zero : appendQ (fun _ => (0 : ℚ)) (fun _ => 0) = fun _ => 0 := by
  funext i
  unfold appendQ
  split <;> rfl

lemma rotInvApplyQ_zero (Rq : Fin 3 → Fin 3 → ℚ) :
    rotInvApplyQ Rq ![0, 0, 0] = fun _ => 0 := by
  funext i
  simp [rotInvApplyQ, sumQ3]

lemma coriolisQ_zero (M : Mat6) : coriolisQ M (fun _ => 0) = fun _ => 0 := by
  unfold coriolisQ
  rw [mulVecQ_zero]
  simp only [show headQ (fun _ => (0 : ℚ)) = fun _ => 0 from rfl,
    show tailQ (fun _ => (0 : ℚ)) = fun _ => 0 from rfl, crossQ_zero]
  funext i
  by_cases h : i.val < 3 <;> simp [appendQ, h]

lemma quadDamping_as_diag (D : Mat6) (v : Vec6) :
    calcQuadDamping D v = mulVecVV (fun r c => Val.num (D r c) * (v c).abs) v := by
  funext r
  unfold calcQuadDamping mulVecQV mulVecVV
  exact congrArg sum6 (funext fun j => (val_mul_assoc _ _ _).symm)

lemma simpleDamping_eval (d : List Mat6) (v : Vec6) (h : d.length = 2) :
    caclSimpleDamping d v = Except.ok
      (addV (calcLinDamping (d.getD 0 0) v) (calcQuadDamping (d.getD 1 0) v)) := by
  unfold caclSimpleDamping
  rw [if_neg (by simp [h])]

lemma simpleDamping_err (d : List Mat6) (v : Vec6) (h : d.length ≠ 2) :
    caclSimpleDamping d v = Except.error "dampMatrices does not have 2 elements." := by
  unfold caclSimpleDamping
  rw [if_pos h]

lemma generalQuadDamping_eval (d : List Mat6) (v : Vec6) (h : d.length = 6) :
    caclGeneralQuadDamping d v = Except.ok (mulVecVV
      (fun r c => sum6 fun i => Val.num ((d.getD i.val 0) r c) * (v i).abs) v) := by
  unfold caclGeneralQuadDamping
  rw [if_neg (by simp [h])]

lemma generalQuadDamping_err (d : List Mat6) (v : Vec6) (h : d.length ≠ 6) :
    caclGeneralQuadDamping d v =
      Except.error "quadDampMatrices does not have 6 elements." := by
  unfold caclGeneralQuadDamping
  rw [if_pos h]

lemma dispatch_simple (p : UWVParameters) (v : Vec6)
    (h : p.model_type = ModelType.SIMPLE) :
    calcDampingAndCoriolisEffect p v = caclSimpleDamping p.damping_matrices v := by
  unfold calcDampingAndCoriolisEffect
  rw [h]

lemma dispatch_complex (p : UWVParameters) (v : Vec6)
    (h : p.model_type = ModelType.COMPLEX) :
    calcDampingAndCoriolisEffect p v =
      (caclGeneralQuadDamping p.damping_matrices v).map
        (fun d => addV (calcCoriolisEffect p.inertia_matrix v) d) := by
  unfold calcDampingAndCoriolisEffect
  rw [h]

lemma dispatch_inter (p : UWVParameters) (v : Vec6)
    (h : p.model_type = ModelType.INTERMEDIATE) :
    calcDampingAndCoriolisEffect p v =
      (caclSimpleDamping p.damping_matrices v).map
        (fun d => addV (calcCoriolisEffect p.inertia_matrix v) d) := by
  unfold calcDampingAndCoriolisEffect
  rw [h]

lemma gravityParams_num (Rq : Fin 3 → Fin 3 → ℚ) (p : UWVParameters) :
    calcGravityBuoyancyParams (numO Rq) p = numV (gravityQ Rq p.weight p.buoyancy
      p.distance_body2centerofgravity p.distance_body2centerofbuoyancy) :=
  gravity_num Rq p.weight p.buoyancy _ _

/-! ## Claim theorems -/

/-- C3 counterexample: an INTERMEDIATE parameter set whose damping sequence
length differs from 2 (here, length 0) is nonetheless accepted by
`setUWVParameters`, refuting the claim that it fails with a configuration
error. -/
theorem setUWVParameters_accepts_INTERMEDIATE_wrong_length :
    pInter.model_type = ModelType.INTERMEDIATE ∧
    pInter.damping_matrices.length ≠ 2 ∧
    (setUWVParameters pInter mSimple).1 = Except.ok () :=
  ⟨rfl, by decide, rfl⟩

/-- C3 (amended): `setUWVParameters` (via `checkParameters`) rejects a
parameter set, leaving an error, exactly when fidelity is SIMPLE and the
damping-matrix sequence length is not 2, or fidelity is COMPLEX and the length
is not 6, or weight is not strictly positive, or buoyancy is not strictly
positive.  The damping length of an INTERMEDIATE parameter set is not
validated at configuration time (only at evaluation time). -/
theorem setUWVParameters_rejects_iff (p : UWVParameters) (m : DynamicModel) :
    (∃ e, (setUWVParameters p m).1 = Except.error e) ↔
      (p.model_type = ModelType.SIMPLE ∧ p.damping_matrices.length ≠ 2) ∨
      (p.model_type = ModelType.COMPLEX ∧ p.damping_matrices.length ≠ 6) ∨
      p.weight ≤ 0 ∨ p.buoyancy ≤ 0 := by
  simp only [setUWVParameters_fst]
  unfold checkParameters
  split_ifs with h1 h2 h3 h4 <;> simp_all

/-- C6: whenever `setUWVParameters` raises a configuration error, the
previously active parameter set and the cached inverse-inertia matrix are
unchanged (observable via `getUWVParameters`); on success both are replaced
together. -/
theorem setUWVParameters_atomic (p : UWVParameters) (m : DynamicModel) :
    (∀ e, checkParameters p = Except.error e →
      (setUWVParameters p m).1 = Except.error e ∧
      (setUWVParameters p m).2 = m ∧
      getUWVParameters (setUWVParameters p m).2 = getUWVParameters m) ∧
    (checkParameters p = Except.ok () →
      (setUWVParameters p m).1 = Except.ok () ∧
      (setUWVParameters p m).2 = ⟨p, calcInvInertiaMatrix p.inertia_matrix⟩) := by
  constructor
  · intro e he
    unfold setUWVParameters
    rw [he]
    exact ⟨rfl, rfl, rfl⟩
  · intro hok
    unfold setUWVParameters
    rw [hok]
    exact ⟨rfl, rfl⟩

/-- C6 witness: a COMPLEX parameter set with a 2-element damping sequence is
rejected and the prior state survives unchanged. -/
theorem setUWVParameters_atomic_witness :
    checkParameters pComplex2 =
      Except.error "in COMPLEX model, damping_matrices should have six elements, one quadratic damping matrix / DOF" ∧
    (setUWVParameters pComplex2 mSimple).2 = mSimple ∧
    getUWVParameters (setUWVParameters pComplex2 mSimple).2 = getUWVParameters mSimple :=
  ⟨rfl, ((setUWVParameters_atomic pComplex2 mSimple).1 _ rfl).2.1,
    ((setUWVParameters_atomic pComplex2 mSimple).1 _ rfl).2.2⟩

/-- C9: `checkParameters` never inspects the inertia matrix, so any inertia
matrix (including a singular or all-zero one) is accepted provided the
damping-count, weight and buoyancy checks pass; on acceptance the new state
caches `calcInvInertiaMatrix` of the inertia matrix, which is total (the
least-squares solve raises no error even when no true inverse exists). -/
theorem checkParameters_ignores_inertia :
    (∀ (p : UWVParameters) (M : Mat6),
      checkParameters { p with inertia_matrix := M } = checkParameters p) ∧
    (∀ (p : UWVParameters) (m : DynamicModel), checkParameters p = Except.ok () →
      (setUWVParameters p m).1 = Except.ok () ∧
      (setUWVParameters p m).2 = ⟨p, calcInvInertiaMatrix p.inertia_matrix⟩) := by
  constructor
  · intro p M
    rfl
  · intro p m h
    unfold setUWVParameters
    rw [h]
    exact ⟨rfl, rfl⟩

/-- C9 witness: the all-zero (singular) inertia matrix is accepted and the
inverse-inertia cache is computed without error. -/
theorem checkParameters_ignores_inertia_witness :
    checkParameters pZeroInertia = Except.ok () ∧
    (setUWVParameters pZeroInertia mSimple).1 = Except.ok () ∧
    (setUWVParameters pZeroInertia mSimple).2 =
      ⟨pZeroInertia, calcInvInertiaMatrix pZeroInertia.inertia_matrix⟩ :=
  ⟨rfl, (checkParameters_ignores_inertia.2 pZeroInertia mSimple rfl).1,
    (checkParameters_ignores_inertia.2 pZeroInertia mSimple rfl).2⟩

/-- The value of the SIMPLE damping term at the witness inputs. -/
def dcZero : Vec6 := addV (calcLinDamping 0 vZero) (calcQuadDamping 0 vZero)

/-- C5: the Coriolis/centripetal term is, with `p = M·v`, the negation of
`[p.linear × v.angular ; p.linear × v.linear + p.angular × v.angular]`;
consequently it is the zero vector whenever the velocity is the zero vector,
for any inertia matrix. -/
theorem calcCoriolisEffect_spec :
    (∀ (M : Mat6) (v : Vec6),
      calcCoriolisEffect M v =
        negV (append3 (cross3 (head3 (mulVecQV M v)) (tail3 v))
          (addV3 (cross3 (head3 (mulVecQV M v)) (head3 v))
            (cross3 (tail3 (mulVecQV M v)) (tail3 v))))) ∧
    (∀ M : Mat6, calcCoriolisEffect M (numV fun _ => 0) = numV fun _ => 0) := by
  constructor
  · intro M v
    rfl
  · intro M
    rw [coriolis_num]
    exact congrArg numV (coriolisQ_zero M)

/-- C8: the gravity/buoyancy restoring term is the zero 6-vector whenever the
weight equals the buoyancy and the center of gravity equals the center of
buoyancy, for every (NaN-free) orientation. -/
theorem calcGravityBuoyancy_neutral (Rq : Fin 3 → Fin 3 → ℚ) (W B : ℚ)
    (cg cb : Fin 3 → ℚ) (hWB : W = B) (hcgcb : cg = cb) :
    calcGravityBuoyancy (numO Rq) W B cg cb = numV fun _ => 0 := by
  subst hWB
  subst hcgcb
  rw [gravity_num]
  apply congrArg
  unfold gravityQ
  rw [sub_self, rotInvApplyQ_zero,
    show (fun i => cg i * W - cg i * W) = (fun _ : Fin 3 => (0 : ℚ)) from by
      funext i; ring_nf,
    crossQ_zero]
  exact appendQ_zero

/-- C8 witness. -/
theorem calcGravityBuoyancy_neutral_witness :
    (1 : ℚ) = 1 ∧ (fun _ : Fin 3 => (0 : ℚ)) = (fun _ => 0) ∧
    calcGravityBuoyancy (numO fun _ _ => 1) 1 1 (fun _ => 0) (fun _ => 0) = numV fun _ => 0 :=
  ⟨rfl, rfl, calcGravityBuoyancy_neutral (fun _ _ => 1) 1 1 (fun _ => 0) (fun _ => 0) rfl rfl⟩

/-- C2: when the NaN checks pass and the damping/Coriolis sub-computation
yields `dc`, `calcAcceleration` returns
`invInertiaMatrix · (controlInput − gravityBuoyancy − dc)` and `calcEfforts`
returns `inertiaMatrix · acceleration + gravityBuoyancy + dc`, where the
gravity/buoyancy and damping/Coriolis terms are the shared sub-computations. -/
theorem eval_formulas (m : DynamicModel) (u a v : Vec6) (R : Orientation) (dc : Vec6)
    (hu : hasNaN u = false) (ha : hasNaN a = false) (hv : hasNaN v = false)
    (hdc : calcDampingAndCoriolisEffect m.uwv_parameters v = Except.ok dc) :
    calcAcceleration m u v R = Except.ok (mulVecQV m.invert_inertia_matrix
      (subV (subV u (calcGravityBuoyancyParams R m.uwv_parameters)) dc)) ∧
    calcEfforts m a v R = Except.ok (addV (addV
      (mulVecQV m.uwv_parameters.inertia_matrix a)
      (calcGravityBuoyancyParams R m.uwv_parameters)) dc) := by
  have hcu : checkControlInput u = Except.ok () := by simp [checkControlInput, hu]
  have hca : checkAcceleration a = Except.ok () := by simp [checkAcceleration, ha]
  have hcv : checkVelocity v = Except.ok () := by simp [checkVelocity, hv]
  constructor
  · unfold calcAcceleration
    rw [hcu, hcv, hdc]
    rfl
  · unfold calcEfforts
    rw [hca, hcv, hdc]
    rfl

/-- C2 witness. -/
theorem eval_formulas_witness :
    hasNaN vZero = false ∧
    calcDampingAndCoriolisEffect mSimple.uwv_parameters vZero = Except.ok dcZero ∧
    calcAcceleration mSimple vZero vZero RidO =
      Except.ok (mulVecQV mSimple.invert_inertia_matrix
        (subV (subV vZero (calcGravityBuoyancyParams RidO mSimple.uwv_parameters)) dcZero)) ∧
    calcEfforts mSimple vZero vZero RidO =
      Except.ok (addV (addV (mulVecQV mSimple.uwv_parameters.inertia_matrix vZero)
        (calcGravityBuoyancyParams RidO mSimple.uwv_parameters)) dcZero) :=
  ⟨rfl, rfl,
    (eval_formulas mSimple vZero vZero vZero RidO dcZero rfl rfl rfl rfl).1,
    (eval_formulas mSimple vZero vZero vZero RidO dcZero rfl rfl rfl rfl).2⟩

/-- C7: `calcAcceleration` fails with the runtime input error whenever the
control input or the velocity contains NaN (in particular for a NaN placed in
any one of the velocity's 6 components), and `calcEfforts` fails whenever the
acceleration or the velocity contains NaN.  The error is raised before any
computation of the result: the statements hold for every model state,
including states whose damping sequence would itself fail at evaluation
time. -/
theorem nan_input_rejection (m : DynamicModel) (u a v : Vec6) (R : Orientation) :
    (hasNaN u = true →
      calcAcceleration m u v R =
        Except.error "DynamicModel checkControlInput: control input is unset") ∧
    (hasNaN u = false → hasNaN v = true →
      calcAcceleration m u v R =
        Except.error "DynamicModel checkVelocity: velocity is unset") ∧
    (hasNaN a = true →
      calcEfforts m a v R =
        Except.error "DynamicModel checkAcceleration: acceleration is unset") ∧
    (hasNaN a = false → hasNaN v = true →
      calcEfforts m a v R =
        Except.error "DynamicModel checkVelocity: velocity is unset") ∧
    (∀ i : Fin 6, hasNaN u = false →
      calcAcceleration m u (Function.update v i Val.nan) R =
        Except.error "DynamicModel checkVelocity: velocity is unset") := by
  refine ⟨?_, ?_, ?_, ?_, ?_⟩
  · intro hu
    unfold calcAcceleration
    rw [show checkControlInput u = Except.error
      "DynamicModel checkControlInput: control input is unset" from by
        simp [checkControlInput, hu]]
    rfl
  · intro hu hv
    unfold calcAcceleration
    rw [show checkControlInput u = Except.ok () from by simp [checkControlInput, hu],
      show checkVelocity v = Except.error
        "DynamicModel checkVelocity: velocity is unset" from by simp [checkVelocity, hv]]
    rfl
  · intro ha
    unfold calcEfforts
    rw [show checkAcceleration a = Except.error
      "DynamicModel checkAcceleration: acceleration is unset" from by
        simp [checkAcceleration, ha]]
    rfl
  · intro ha hv
    unfold calcEfforts
    rw [show checkAcceleration a = Except.ok () from by simp [checkAcceleration, ha],
      show checkVelocity v = Except.error
        "DynamicModel checkVelocity: velocity is unset" from by simp [checkVelocity, hv]]
    rfl
  · intro i hu
    unfold calcAcceleration
    rw [show checkControlInput u = Except.ok () from by simp [checkControlInput, hu],
      show checkVelocity (Function.update v i Val.nan) = Except.error
        "DynamicModel checkVelocity: velocity is unset" from by
          simp [checkVelocity, hasNaN_update]]
    rfl

/-- C7 witness: a NaN in velocity component 3 and in the control input. -/
theorem nan_input_rejection_witness :
    hasNaN vZero = false ∧
    calcAcceleration mSimple vZero (Function.update vZero 3 Val.nan) RidO =
      Except.error "DynamicModel checkVelocity: velocity is unset" ∧
    calcAcceleration mSimple (Function.update vZero 0 Val.nan) vZero RidO =
      Except.error "DynamicModel checkControlInput: control input is unset" ∧
    calcEfforts mSimple (Function.update vZero 0 Val.nan) vZero RidO =
      Except.error "DynamicModel checkAcceleration: acceleration is unset" :=
  ⟨rfl,
    (nan_input_rejection mSimple vZero vZero vZero RidO).2.2.2.2 3 rfl,
    (nan_input_rejection mSimple (Function.update vZero 0 Val.nan) vZero vZero RidO).1
      (hasNaN_update vZero 0),
    (nan_input_rejection mSimple vZero (Function.update vZero 0 Val.nan) vZero RidO).2.2.1
      (hasNaN_update vZero 0)⟩

/-- C4: for every velocity the combined damping+Coriolis term is, for SIMPLE,
`D0·v + D1·diag(|v|)·v` with no Coriolis term; for INTERMEDIATE, that same
damping sum plus the Coriolis term; for COMPLEX, `(sum over i of Di·|v i|)·v`
plus the Coriolis term; and the evaluation raises an error when the
damping-matrix sequence length does not match the selected fidelity's
requirement (2 for the SIMPLE/INTERMEDIATE simple-damping call, 6 for the
COMPLEX general-quadratic call). -/
theorem dampingAndCoriolis_dispatch (p : UWVParameters) (v : Vec6) :
    (p.model_type = ModelType.SIMPLE → p.damping_matrices.length = 2 →
      calcDampingAndCoriolisEffect p v = Except.ok
        (addV (mulVecQV (p.damping_matrices.getD 0 0) v)
          (mulVecVV (fun r c =>
            Val.num ((p.damping_matrices.getD 1 0) r c) * (v c).abs) v))) ∧
    (p.model_type = ModelType.INTERMEDIATE → p.damping_matrices.length = 2 →
      calcDampingAndCoriolisEffect p v = Except.ok
        (addV (addV (mulVecQV (p.damping_matrices.getD 0 0) v)
          (mulVecVV (fun r c =>
            Val.num ((p.damping_matrices.getD 1 0) r c) * (v c).abs) v))
          (calcCoriolisEffect p.inertia_matrix v))) ∧
    (p.model_type = ModelType.COMPLEX → p.damping_matrices.length = 6 →
      calcDampingAndCoriolisEffect p v = Except.ok
        (addV (mulVecVV (fun r c => sum6 fun i =>
          Val.num ((p.damping_matrices.getD i.val 0) r c) * (v i).abs) v)
          (calcCoriolisEffect p.inertia_matrix v))) ∧
    ((p.model_type = ModelType.SIMPLE ∨ p.model_type = ModelType.INTERMEDIATE) →
      p.damping_matrices.length ≠ 2 →
      calcDampingAndCoriolisEffect p v =
        Except.error "dampMatrices does not have 2 elements.") ∧
    (p.model_type = ModelType.COMPLEX → p.damping_matrices.length ≠ 6 →
      calcDampingAndCoriolisEffect p v =
        Except.error "quadDampMatrices does not have 6 elements.") := by
  refine ⟨?_, ?_, ?_, ?_, ?_⟩
  · intro h1 h2
    rw [dispatch_simple p v h1, simpleDamping_eval _ _ h2, quadDamping_as_diag]
    rfl
  · intro h1 h2
    rw [dispatch_inter p v h1, simpleDamping_eval _ _ h2]
    show Except.ok (addV (calcCoriolisEffect p.inertia_matrix v)
      (addV (calcLinDamping (p.damping_matrices.getD 0 0) v)
        (calcQuadDamping (p.damping_matrices.getD 1 0) v))) = _
    rw [addV_comm, quadDamping_as_diag]
    rfl
  · intro h1 h2
    rw [dispatch_complex p v h1, generalQuadDamping_eval _ _ h2]
    show Except.ok (addV (calcCoriolisEffect p.inertia_matrix v)
      (mulVecVV (fun r c => sum6 fun i =>
        Val.num ((p.damping_matrices.getD i.val 0) r c) * (v i).abs) v)) = _
    rw [addV_comm]
  · intro h1 h2
    rcases h1 with hS | hI
    · rw [dispatch_simple p v hS, simpleDamping_err _ _ h2]
    · rw [dispatch_inter p v hI, simpleDamping_err _ _ h2]
      rfl
  · intro h1 h2
    rw [dispatch_complex p v h1, generalQuadDamping_err _ _ h2]
    rfl

/-- C4 witness. -/
theorem dampingAndCoriolis_dispatch_witness :
    pSimple.model_type = ModelType.SIMPLE ∧ pSimple.damping_matrices.length = 2 ∧
    calcDampingAndCoriolisEffect pSimple vZero = Except.ok
      (addV (mulVecQV (pSimple.damping_matrices.getD 0 0) vZero)
        (mulVecVV (fun r c =>
          Val.num ((pSimple.damping_matrices.getD 1 0) r c) * (vZero c).abs) vZero)) ∧
    pComplex2.model_type = ModelType.COMPLEX ∧ pComplex2.damping_matrices.length ≠ 6 ∧
    calcDampingAndCoriolisEffect pComplex2 vZero =
      Except.error "quadDampMatrices does not have 6 elements." :=
  ⟨rfl, rfl, (dampingAndCoriolis_dispatch pSimple vZero).1 rfl rfl, rfl, by decide,
    (dampingAndCoriolis_dispatch pComplex2 vZero).2.2.2.2 rfl (by decide)⟩

/-- C10: the orientation argument is never validated: whenever the control
input and velocity are NaN-free and the damping sequence length matches the
fidelity, `calcAcceleration` and `calcEfforts` return a result (raise no
error) for every orientation, including a NaN-containing one; concretely, a
call with an all-NaN orientation succeeds and returns a vector that itself
contains NaN. -/
theorem orientation_never_validated :
    (∀ (m : DynamicModel) (u v : Vec6) (R : Orientation),
      hasNaN u = false → hasNaN v = false →
      (m.uwv_parameters.model_type ≠ ModelType.COMPLEX →
        m.uwv_parameters.damping_matrices.length = 2) →
      (m.uwv_parameters.model_type = ModelType.COMPLEX →
        m.uwv_parameters.damping_matrices.length = 6) →
      (∃ w, calcAcceleration m u v R = Except.ok w) ∧
      (∃ w, calcEfforts m u v R = Except.ok w)) ∧
    (∃ w, calcAcceleration mSimple vZero vZero Rnan = Except.ok w ∧
      hasNaN w = true) := by
  constructor
  · intro m u v R hu hv h2 h6
    have hdc : ∃ d, calcDampingAndCoriolisEffect m.uwv_parameters v = Except.ok d := by
      cases hm : m.uwv_parameters.model_type
      case SIMPLE =>
        rw [dispatch_simple _ _ hm, simpleDamping_eval _ _ (h2 (by simp [hm]))]
        exact ⟨_, rfl⟩
      case COMPLEX =>
        rw [dispatch_complex _ _ hm, generalQuadDamping_eval _ _ (h6 hm)]
        exact ⟨_, rfl⟩
      case INTERMEDIATE =>
        rw [dispatch_inter _ _ hm, simpleDamping_eval _ _ (h2 (by simp [hm]))]
        exact ⟨_, rfl⟩
    obtain ⟨d, hd⟩ := hdc
    constructor
    · refine ⟨mulVecQV m.invert_inertia_matrix
        (subV (subV u (calcGravityBuoyancyParams R m.uwv_parameters)) d), ?_⟩
      unfold calcAcceleration
      rw [show checkControlInput u = Except.ok () from by simp [checkControlInput, hu],
        show checkVelocity v = Except.ok () from by simp [checkVelocity, hv], hd]
      rfl
    · refine ⟨addV (addV (mulVecQV m.uwv_parameters.inertia_matrix u)
        (calcGravityBuoyancyParams R m.uwv_parameters)) d, ?_⟩
      unfold calcEfforts
      rw [show checkAcceleration u = Except.ok () from by simp [checkAcceleration, hu],
        show checkVelocity v = Except.ok () from by simp [checkVelocity, hv], hd]
      rfl
  · exact ⟨_, rfl, rfl⟩

/-- C10 witness. -/
theorem orientation_never_validated_witness :
    hasNaN vZero = false ∧
    (∃ w, calcAcceleration mSimple vZero vZero Rnan = Except.ok w) :=
  ⟨rfl, (orientation_never_validated.1 mSimple vZero vZero Rnan rfl rfl
    (fun _ => rfl) (fun h => ModelType.noConfusion h)).1⟩

/-- C1 counterexample: the INTERMEDIATE parameter set `pInter` (empty damping
sequence) is accepted by `setUWVParameters` and has an invertible (identity)
inertia matrix, yet `calcEfforts` raises the damping-length runtime error, so
the round-trip `calcAcceleration ∘ calcEfforts` yields that error instead of
returning the acceleration. -/
theorem roundtrip_fails_on_accepted_params :
    (setUWVParameters pInter mSimple).1 = Except.ok () ∧
    pInter.inertia_matrix.det ≠ 0 ∧
    calcEfforts (setUWVParameters pInter mSimple).2 vZero vZero RidO =
      Except.error "dampMatrices does not have 2 elements." ∧
    ((calcEfforts (setUWVParameters pInter mSimple).2 vZero vZero RidO).bind
      (fun t => calcAcceleration (setUWVParameters pInter mSimple).2 t vZero RidO)) =
      Except.error "dampMatrices does not have 2 elements." :=
  ⟨rfl, by simp [pInter, pSimple], rfl, rfl⟩

/-- C1 (amended): for every parameter set accepted by `setUWVParameters` whose
inertia matrix is invertible (so the cached inverse-inertia matrix is the true
inverse) and whose damping-matrix count also matches the fidelity requirement
in the INTERMEDIATE case (the one case `setUWVParameters` does not itself
enforce), and for every NaN-free velocity, orientation and acceleration,
`calcAcceleration (calcEfforts a v R) v R = a` in exact arithmetic. -/
theorem roundtrip_inverse (p : UWVParameters) (m0 : DynamicModel)
    (hacc : (setUWVParameters p m0).1 = Except.ok ())
    (hdet : p.inertia_matrix.det ≠ 0)
    (hinter : p.model_type = ModelType.INTERMEDIATE → p.damping_matrices.length = 2)
    (aq vq : Fin 6 → ℚ) (Rq : Fin 3 → Fin 3 → ℚ) :
    ∃ τ, calcEfforts (setUWVParameters p m0).2 (numV aq) (numV vq) (numO Rq) =
        Except.ok τ ∧
      calcAcceleration (setUWVParameters p m0).2 τ (numV vq) (numO Rq) =
        Except.ok (numV aq) := by
  have hchk : checkParameters p = Except.ok () := by
    rw [setUWVParameters_fst] at hacc
    exact hacc
  have hm1 : (setUWVParameters p m0).2.uwv_parameters = p := by
    unfold setUWVParameters
    rw [hchk]
  have hm2 : (setUWVParameters p m0).2.invert_inertia_matrix =
      calcInvInertiaMatrix p.inertia_matrix := by
    unfold setUWVParameters
    rw [hchk]
  obtain ⟨hS, hC, hw, hb⟩ := checkParameters_ok_facts p hchk
  have h2 : p.model_type ≠ ModelType.COMPLEX → p.damping_matrices.length = 2 := by
    intro hne
    cases hm : p.model_type
    case SIMPLE => exact hS hm
    case COMPLEX => exact absurd hm hne
    case INTERMEDIATE => exact hinter hm
  have hdc := dampingCoriolis_num p vq h2 hC
  refine ⟨numV (mulVecQ p.inertia_matrix aq +
    gravityQ Rq p.weight p.buoyancy p.distance_body2centerofgravity
      p.distance_body2centerofbuoyancy + dampingCoriolisQ p vq), ?_, ?_⟩
  · unfold calcEfforts
    rw [hm1,
      show checkAcceleration (numV aq) = Except.ok () from by
        simp [checkAcceleration, hasNaN_numV],
      show checkVelocity (numV vq) = Except.ok () from by
        simp [checkVelocity, hasNaN_numV], hdc]
    show Except.ok (addV (addV (mulVecQV p.inertia_matrix (numV aq))
      (calcGravityBuoyancyParams (numO Rq) p)) (numV (dampingCoriolisQ p vq))) = _
    rw [gravityParams_num, mulVecQV_num, addV_num, addV_num]
  · unfold calcAcceleration
    rw [hm1, hm2,
      show checkControlInput (numV (mulVecQ p.inertia_matrix aq +
        gravityQ Rq p.weight p.buoyancy p.distance_body2centerofgravity
          p.distance_body2centerofbuoyancy + dampingCoriolisQ p vq)) = Except.ok () from by
        simp [checkControlInput, hasNaN_numV],
      show checkVelocity (numV vq) = Except.ok () from by
        simp [checkVelocity, hasNaN_numV], hdc]
    show Except.ok (mulVecQV (calcInvInertiaMatrix p.inertia_matrix)
      (subV (subV (numV (mulVecQ p.inertia_matrix aq +
        gravityQ Rq p.weight p.buoyancy p.distance_body2centerofgravity
          p.distance_body2centerofbuoyancy + dampingCoriolisQ p vq))
        (calcGravityBuoyancyParams (numO Rq) p)) (numV (dampingCoriolisQ p vq)))) = _
    rw [gravityParams_num, subV_num, subV_num, mulVecQV_num]
    apply congrArg
    apply congrArg
    rw [show mulVecQ p.inertia_matrix aq +
      gravityQ Rq p.weight p.buoyancy p.distance_body2centerofgravity
        p.distance_body2centerofbuoyancy + dampingCoriolisQ p vq -
      gravityQ Rq p.weight p.buoyancy p.distance_body2centerofgravity
        p.distance_body2centerofbuoyancy - dampingCoriolisQ p vq =
      mulVecQ p.inertia_matrix aq from by
        funext i
        simp only [Pi.add_apply, Pi.sub_apply]
        ring]
    rw [mulVecQ_eq_mulVec, mulVecQ_eq_mulVec, Matrix.mulVec_mulVec,
      calcInvInertiaMatrix_mul _ hdet, Matrix.one_mulVec]

/-- C1 witness (for the amended round-trip). -/
theorem roundtrip_inverse_witness :
    (setUWVParameters pSimple mSimple).1 = Except.ok () ∧
    pSimple.inertia_matrix.det ≠ 0 ∧
    (∃ τ, calcEfforts (setUWVParameters pSimple mSimple).2 (numV fun _ => 0)
        (numV fun _ => 0) (numO fun i j => if i = j then 1 else 0) = Except.ok τ ∧
      calcAcceleration (setUWVParameters pSimple mSimple).2 τ (numV fun _ => 0)
        (numO fun i j => if i = j then 1 else 0) = Except.ok (numV fun _ => 0)) :=
  ⟨rfl, by simp [pSimple],
    roundtrip_inverse pSimple mSimple rfl (by simp [pSimple])
      (fun h => ModelType.noConfusion h) (fun _ => 0) (fun _ => 0)
      (fun i j => if i = j then 1 else 0)⟩

end UwvModel
